import Mathlib

/-!
Verification of the therapy-assistant chat service (`src/main.py`).

The development shallowly embeds the request-handling logic of the single
source file: the emergency keyword filter, the canned emergency response,
the phase classifier, the prompt assembler, the credential check, and the
parse/validate pipeline applied to the external completion.  JSON values
are modelled by an inductive type with rational numbers standing for JSON
numbers (no floating point is exercised by any property proved here);
Python dicts are modelled as association lists looked up at the first
matching key.
-/

/-- JSON values, as produced by `json.loads` on the completion text.
Numbers are modelled as rationals. -/
inductive Json where
  | null : Json
  | bool (b : Bool) : Json
  | num (q : ℚ) : Json
  | str (s : String) : Json
  | arr (elems : List Json) : Json
  | obj (fields : List (String × Json)) : Json
deriving Repr

/-- Field lookup on a JSON object (first matching key); `none` on any
other JSON value or a missing key. -/
def Json.get : Json → String → Option Json
  | .obj fields, k => go fields k
  | _, _ => none
where
  go : List (String × Json) → String → Option Json
    | [], _ => none
    | (k, v) :: rest, key => if k = key then some v else go rest key

/-- A chat message as handled by the endpoint: a Python `Dict[str, str]`,
modelled as an association list. -/
abbrev Msg : Type := List (String × String)

/-- `msg.get(key)` on a message dict: first matching key, `none` when
absent (Python returns `None`). -/
def Msg.get (m : Msg) (key : String) : Option String :=
  match m with
  | [] => none
  | (k, v) :: rest => if k = key then some v else Msg.get rest key

/-- Word characters for the regex word boundary `\b`, on the ASCII range
exercised by the fixed crisis terms: letters, digits and underscore. -/
def isWordChar (c : Char) : Bool :=
  c.isAlphanum || c = '_'

/-- The previous character (if any) permits a `\b` boundary before a
word character. -/
def boundaryBefore : Option Char → Bool
  | none => true
  | some c => !isWordChar c

/-- `term` occurs at the head of `s`, and the character right after the
occurrence (if any) is not a word character (the closing `\b`; every
crisis term ends in a letter). -/
def headMatchWB : List Char → List Char → Bool
  | [], [] => true
  | [], c :: _ => !isWordChar c
  | _ :: _, [] => false
  | t :: ts, c :: cs => t = c && headMatchWB ts cs

/-- Scan `s` for an occurrence of `term` opening at a `\b` boundary
(`prev` is the character preceding the current position) and closing at
a `\b` boundary. -/
def searchWB (term : List Char) (prev : Option Char) (s : List Char) : Bool :=
  match s with
  | [] => false
  | c :: cs =>
    (boundaryBefore prev && headMatchWB term (c :: cs)) || searchWB term (some c) cs

/-- `msg` contains `term` as a whole word, case-insensitively (ASCII
folding, matching `re.IGNORECASE` on these all-ASCII terms). -/
def containsWordCI (term msg : String) : Bool :=
  searchWB (term.toList.map Char.toLower) none (msg.toList.map Char.toLower)

/-- The alternatives of `EMERGENCY_PATTERN`
(`\b(suicide|kill myself|...|die)\b`, `re.IGNORECASE`), in source
order. -/
def EMERGENCY_TERMS : List String :=
  ["suicide", "kill myself", "want to die", "chest pain", "can\x27t breathe",
   "cant breathe", "heart attack", "trouble breathing", "overdose",
   "I am in danger", "im in danger", "die"]

/-- `EMERGENCY_PATTERN.search(message)` is truthy: some alternative
matches somewhere in the message with word boundaries on both sides. -/
def emergencyMatch (message : String) : Bool :=
  EMERGENCY_TERMS.any (fun t => containsWordCI t message)

/-- The canned `EMERGENCY_RESPONSE` dict, as the JSON object returned by
`JSONResponse(content=EMERGENCY_RESPONSE)`. -/
def EMERGENCY_RESPONSE : Json :=
  .obj
    [("intent", .str "escalate"),
     ("summary", .str "It sounds like you might be in immediate danger or experiencing a medical emergency. Please seek help right now."),
     ("actions", .arr
       [.obj
         [("type", .str "seek-professional"),
          ("text", .str "Please contact your local emergency services immediately (for example, 911 or 999), or go to the nearest emergency room. If possible, also reach out to a trusted person near you.")]]),
     ("confidence", .num 1),
     ("evidence", .arr [])]

/-- The module-level `SYSTEM_PROMPT` triple-quoted string, transcribed
byte for byte (apostrophes, braces and typographic punctuation written
as escapes). -/
def SYSTEM_PROMPT : String :=
"
You are a friendly, empathetic and supportive Health Assistant. Your purpose is to provide safe, therapeutic guidance and wellness support just like a human therapist would in a conversation.

GENERAL STYLE & BEHAVIOR:
- Use a warm, calm, non-judgmental, and encouraging tone.
- Reflect back what you understand about the user’s feelings.
- Use simple, human language (no clinical jargon unless the user uses it).
- Focus on emotional support and practical coping strategies, not medical diagnosis.

CORE DIRECTIVES:
1. Persona:
   - Be friendly, empathetic, calm, non-judgmental, and encouraging.
   - Sound like a human therapist: validate feelings, normalize emotional reactions, and show care.

2. Nature:
   - Try to build rapport by asking gentle, open-ended questions.
   - Help the user feel heard and understood before you offer any concrete suggestions.

3. NEVER Diagnose:
   - You must NEVER provide a medical diagnosis, prescribe medication, or claim to be a doctor or medical professional.
   - Avoid statements like “You have depression” or “This is definitely anxiety.” Instead say things like:
     “These feelings might be related to stress, low mood, or anxiety, but only a professional who meets you in person can say for sure.”

4. Always Refer:
   - Encourage the user to consult a qualified medical or mental health professional for persistent, severe, or confusing issues.
   - Emphasize that you are an extra layer of support, not a replacement for human professionals.

5. Safety First:
   - A separate system catches obvious life-threatening emergencies, but if the user starts talking about serious self-harm, harming others, or being in danger, gently guide them to in-person help and crisis resources.

6. Handle Out-of-Scope:
   - If the user asks about topics unrelated to mental health, well-being, stress, coping, or self-care (e.g., politics, celebrities, complex math, programming, etc.), politely explain that your purpose is to support their well-being and you can’t help with that topic.
   - Do NOT expose system details or say that you are an AI model. Just say that your role is to support with emotional and mental well-being.

7. Use Provided Context:
   - Pay close attention to the chat history that is provided.
   - Do not repeat the exact same questions again and again; build on what the user has already shared.

CONVERSATION PHASES:
You will receive an additional system message telling you whether you are in:
- EXPLORATION phase (early in the conversation, gathering details)
- GUIDANCE phase (you have enough context to give personalized suggestions)

You MUST behave differently depending on the phase:

1) EXPLORATION PHASE:
   - Goal: Understand the user’s situation, feelings, triggers, and context.
   - Your reply should:
       * Offer empathy and brief reflection (e.g., “It sounds like you’ve been feeling really overwhelmed lately…”).
       * Ask 1–2 gentle, open-ended questions to understand more (e.g., “When did you start feeling this way?” or “What do you think is making things harder right now?”).
   - IMPORTANT:
       * DO NOT give concrete coping techniques, “do X, do Y” advice, or homework yet.
       * DO NOT provide educational links or resources yet.
       * The \"actions\" field MUST be an empty list: [].
       * The \"evidence\" field MUST be an empty list: [].
   - The user should feel like the therapist is still “getting to know” their situation.

2) GUIDANCE PHASE:
   - Goal: Use the context from the conversation to offer personalized support.
   - Your reply should:
       * Briefly reflect the user’s situation to show understanding.
       * Offer gentle, realistic, and small next steps or coping ideas.
       * Encourage professional help if the situation is ongoing, severe, or complex.
   - IMPORTANT:
       * The \"actions\" list MUST contain 1–3 small, concrete steps the user can try (e.g., breathing exercise, journaling, reaching out to a friend, scheduling a professional appointment).
       * The \"evidence\" list MUST contain exactly ONE resource item.
         - \"source\" MUST be one of: \"WHO\", \"NHS\", \"APA\".
         - \"link\" MUST be a real, relevant URL from one of these domains:
             WHO: \x27https://www.who.int/\x27
             NHS: \x27https://www.nhs.uk/\x27
             APA: \x27https://www.apa.org/\x27
         - Choose a link that roughly matches the main topic (e.g., depression, anxiety, stress, sleep, mental health).

OUTPUT FORMAT (STRICT JSON):
You MUST output ONLY a JSON object with this structure and nothing else. No markdown, no backticks, no commentary outside JSON.

\x7b
  \"intent\": \"A short category of your response. Must be one of: [\x27self-care\x27, \x27refer\x27, \x27escalate\x27, \x27out-of-scope\x27]\",
  \"summary\": \"In EXPLORATION: an empathetic reflection plus 1–2 gentle, open questions. In GUIDANCE: a concise, one-paragraph reflection plus supportive, tailored guidance.\",
  \"actions\": [
    \x7b
      \"type\": \"The type of action. Must be one of: [\x27self-care\x27, \x27seek-professional\x27, \x27information\x27]\",
      \"text\": \"A concrete, actionable suggestion. For example: \x27Try a 5-minute slow breathing exercise: inhale for 4 seconds, hold for 4, exhale for 6.\x27 or \x27Consider booking a session with a therapist to talk through these feelings.\x27\"
    \x7d
  ],
  \"confidence\": \"A float (0.0 to 1.0) representing your confidence in the appropriateness of your guidance. Use lower values when the situation is complex, vague, or long-term.\",
  \"evidence\": [
    \x7b
      \"title\": \"A short descriptive title for a helpful resource (e.g., \x27Understanding Low Mood\x27, \x27Coping with Anxiety\x27).\",
      \"source\": \"Exactly one of: \x27WHO\x27, \x27NHS\x27, \x27APA\x27.\",
      \"link\": \"A single, relevant URL from WHO, NHS or APA websites.\"
    \x7d
  ]
\x7d

NOTES:
- In EXPLORATION phase: \"actions\": [] and \"evidence\": [] MUST be empty lists.
- In GUIDANCE phase: \"actions\" MUST have 1–3 items, and \"evidence\" MUST have exactly 1 item.
- Keep the JSON valid at all times. Do not include comments inside JSON.
"

/-- The EXPLORATION branch of `build_phase_instruction`: the f-string
returned when `user_turn_count <= 3`, with the turn count
interpolated. -/
def explorationInstruction (user_turn_count : Nat) : String :=
"
You are currently in the EXPLORATION phase of the conversation.
- User messages so far (including current): " ++ toString user_turn_count ++ ".
- DO NOT give concrete suggestions or techniques yet.
- Focus on empathy and understanding.
- Ask 1–2 gentle, open-ended questions to better understand what they are going through.
- The \x27actions\x27 field in your JSON MUST be an empty list: [].
- The \x27evidence\x27 field in your JSON MUST be an empty list: [].
- \x27intent\x27 will usually be \x27self-care\x27 unless you need to \x27refer\x27 or \x27escalate\x27.
"

/-- The GUIDANCE branch of `build_phase_instruction`: the f-string
returned when `user_turn_count > 3`. -/
def guidanceInstruction (user_turn_count : Nat) : String :=
"
You are now in the GUIDANCE phase of the conversation.
- User messages so far (including current): " ++ toString user_turn_count ++ ".
- You have enough context to offer personalized support.
- Provide 1–3 concrete, realistic next steps in \x27actions\x27.
- Provide exactly ONE appropriate resource in \x27evidence\x27 (WHO, NHS, or APA).
- Maintain empathy and validation while giving guidance.
"

/-- `build_phase_instruction(user_turn_count)`: the phase system message.
(The source also assigns a local `phase` name in each branch; it is dead
and not modelled.) -/
def build_phase_instruction (user_turn_count : Nat) : String :=
  if user_turn_count ≤ 3 then explorationInstruction user_turn_count
  else guidanceInstruction user_turn_count

/-- The permitted values of the `intent` literal in `ChatResponse`. -/
def intentValues : List String := ["self-care", "refer", "escalate", "out-of-scope"]

/-- The permitted values of the `type` literal in `ActionItem`. -/
def actionTypeValues : List String := ["self-care", "seek-professional", "information"]

/-- Pydantic `ActionItem`; the `Literal` constraint on `type` is enforced
by `validateActionItem`. -/
structure ActionItem where
  type : String
  text : String
deriving DecidableEq, Repr

/-- Pydantic `EvidenceItem`: all three fields are declared plain `str`
in the source (no enum constraint on `source`). -/
structure EvidenceItem where
  title : String
  source : String
  link : String
deriving DecidableEq, Repr

/-- Pydantic `ChatResponse`; the `intent` literal and the confidence
bounds (`ge=0.0, le=1.0`) are enforced by `validateChatResponse`. -/
structure ChatResponse where
  intent : String
  summary : String
  actions : List ActionItem
  confidence : ℚ
  evidence : List EvidenceItem
deriving DecidableEq, Repr

/-- Pydantic validation of one element of `actions`: an object with a
string `type` drawn from the `Literal`, and a string `text`. -/
def validateActionItem (j : Json) : Option ActionItem :=
  match j.get "type", j.get "text" with
  | some (.str t), some (.str x) =>
    if t ∈ actionTypeValues then some { type := t, text := x } else none
  | _, _ => none

/-- Pydantic validation of one element of `evidence`: three string
fields; `source` is an arbitrary string. -/
def validateEvidenceItem (j : Json) : Option EvidenceItem :=
  match j.get "title", j.get "source", j.get "link" with
  | some (.str t), some (.str s), some (.str l) => some { title := t, source := s, link := l }
  | _, _, _ => none

/-- Element-wise validation of a JSON list, failing on the first
non-conforming element (pydantic validates each item of a `List[...]`
field). -/
def validateList {α : Type} (f : Json → Option α) : List Json → Option (List α)
  | [] => some []
  | j :: js =>
    match f j, validateList f js with
    | some a, some as => some (a :: as)
    | _, _ => none

/-- `ChatResponse(**response_data)`: field presence, field types, the
`intent` literal and the confidence bounds.  Extra keys are ignored
(pydantic default).  On failure the pydantic `ValidationError` text is
abstracted to a short description. -/
def validateChatResponse (j : Json) : Except String ChatResponse :=
  match j.get "intent", j.get "summary", j.get "actions", j.get "confidence", j.get "evidence" with
  | some (.str i), some (.str s), some (.arr as), some (.num c), some (.arr es) =>
    if i ∈ intentValues then
      if 0 ≤ c ∧ c ≤ 1 then
        match validateList validateActionItem as, validateList validateEvidenceItem es with
        | some actions, some evidence =>
          .ok { intent := i, summary := s, actions := actions, confidence := c, evidence := evidence }
        | none, _ => .error "actions: value is not a valid ActionItem"
        | _, none => .error "evidence: value is not a valid EvidenceItem"
      else .error "confidence: value is not in the range [0.0, 1.0]"
    else .error "intent: value is not a permitted literal"
  | _, _, _, _, _ => .error "missing or mistyped field"

/-- Serialization of a validated `ActionItem` back to JSON (FastAPI
serializes the returned model). -/
def ActionItem.toJson (a : ActionItem) : Json :=
  .obj [("type", .str a.type), ("text", .str a.text)]

/-- Serialization of a validated `EvidenceItem` back to JSON. -/
def EvidenceItem.toJson (e : EvidenceItem) : Json :=
  .obj [("title", .str e.title), ("source", .str e.source), ("link", .str e.link)]

/-- Serialization of a validated `ChatResponse` back to JSON. -/
def ChatResponse.toJson (r : ChatResponse) : Json :=
  .obj [("intent", .str r.intent), ("summary", .str r.summary),
        ("actions", .arr (r.actions.map ActionItem.toJson)),
        ("confidence", .num r.confidence),
        ("evidence", .arr (r.evidence.map EvidenceItem.toJson))]

/-- Pydantic `ChatRequest`: the request body of `POST /chat`. -/
structure ChatRequest where
  message : String
  history : List Msg := []

/-- The completion call as observed by the endpoint: the API raised, or
it returned content that is empty/`None`, fails `json.loads`, or parses
to a JSON value. -/
inductive LLMOutcome where
  | apiError (msg : String) : LLMOutcome
  | emptyContent : LLMOutcome
  | invalidJson : LLMOutcome
  | validJson (j : Json) : LLMOutcome

/-- The HTTP outcome of `/chat`: the emergency `JSONResponse`, the
validated pydantic model (serialized by FastAPI), or an
`HTTPException`. -/
inductive ChatResult where
  | okJson (body : Json) : ChatResult
  | okModel (r : ChatResponse) : ChatResult
  | error (status : Nat) (detail : String) : ChatResult

/-- `not client.api_key`: the credential is unset or the empty string
(Python falsiness). -/
def missingKey : Option String → Bool
  | none => true
  | some s => s = ""

/-- `sum(1 for msg in request.history if msg.get("role") == "user")`. -/
def userTurnsInHistory (history : List Msg) : Nat :=
  (history.filter (fun m => m.get "role" == some "user")).length

/-- The ordered message list assembled for the completion call: the two
system messages, then `request.history` extended verbatim, then the new
user message. -/
def chatMessages (req : ChatRequest) : List Msg :=
  [[("role", "system"), ("content", SYSTEM_PROMPT)],
   [("role", "system"), ("content", build_phase_instruction (userTurnsInHistory req.history + 1))]]
  ++ req.history
  ++ [[("role", "user"), ("content", req.message)]]

/-- Lines 273-295 of the endpoint: everything after
`client.chat.completions.create` returns or raises.  The inner
`HTTPException`s are themselves caught by the outer `except Exception`
and re-raised with detail `f"An error occurred: {str(e)}"`, where
Starlette renders `str(e)` as `f"{status_code}: {detail}"`. -/
def handleLLMOutcome : LLMOutcome → ChatResult
  | .apiError m => .error 500 ("An error occurred: " ++ m)
  | .emptyContent => .error 500 ("An error occurred: 500: LLM returned an empty response.")
  | .invalidJson => .error 500 ("An error occurred: 500: LLM returned invalid JSON.")
  | .validJson j =>
    match validateChatResponse j with
    | .ok r => .okModel r
    | .error e => .error 500 ("An error occurred: 500: LLM response validation failed: " ++ e)

/-- The part of the endpoint that runs before any network traffic:
either it already responds (emergency interception, or the credential
check that precedes the API call), or it invokes the completion API
with an assembled message list. -/
inductive ChatStep where
  | respond (r : ChatResult) : ChatStep
  | callLLM (messages : List Msg) : ChatStep

/-- The endpoint up to the completion call: safety layer first; then the
phase/messages construction; then the fail-fast credential check. -/
def chatStep (api_key : Option String) (req : ChatRequest) : ChatStep :=
  if emergencyMatch req.message then
    .respond (.okJson EMERGENCY_RESPONSE)
  else
    let messages := chatMessages req
    if missingKey api_key then
      .respond (.error 500 "OPENAI_API_KEY not configured on the server. Please set the environment variable.")
    else
      .callLLM messages

/-- The whole `/chat` endpoint, parameterized by the external completion
API (`llm` receives exactly the messages of the single call the
endpoint makes, if any). -/
def chat (api_key : Option String) (llm : List Msg → LLMOutcome) (req : ChatRequest) : ChatResult :=
  match chatStep api_key req with
  | .respond r => r
  | .callLLM messages => handleLLMOutcome (llm messages)

/-- `pat` occurs as a contiguous run of `s`. -/
def occursIn (pat : List Char) : List Char → Bool
  | [] => pat.isEmpty
  | c :: cs => pat.isPrefixOf (c :: cs) || occursIn pat cs

/-- `pat` occurs as a substring of `s`. -/
def strOccurs (pat s : String) : Bool :=
  occursIn pat.data s.data

/-!
Concrete requests and completions used as evaluation points below.
-/

/-- A plain, non-emergency request with empty history (spec example). -/
def stressedReq : ChatRequest := { message := "I\x27ve been stressed about work", history := [] }

/-- A completion whose single evidence item cites `source` outside
the set `WHO`/`NHS`/`APA`; every other field is well typed. -/
def completionWithSource (s : String) : Json :=
  .obj [("intent", .str "refer"),
        ("summary", .str "Consider talking this through with a professional."),
        ("actions", .arr [.obj [("type", .str "seek-professional"), ("text", .str "Book a session with a therapist.")]]),
        ("confidence", .num (mkRat 7 10)),
        ("evidence", .arr [.obj [("title", .str "Coping with Stress"), ("source", .str s), ("link", .str "https://example.org/stress")]])]

/-- A well-typed exploration-shaped completion. -/
def sampleCompletion : Json :=
  .obj [("intent", .str "self-care"),
        ("summary", .str "It sounds like work has been weighing on you. What part feels heaviest right now?"),
        ("actions", .arr []),
        ("confidence", .num (mkRat 4 5)),
        ("evidence", .arr [])]

/-- A completion with `confidence = 1.5`, outside the pydantic bounds. -/
def overconfidentCompletion : Json :=
  .obj [("intent", .str "self-care"),
        ("summary", .str "Try to rest."),
        ("actions", .arr []),
        ("confidence", .num (mkRat 3 2)),
        ("evidence", .arr [])]

/-- A completion whose `intent` is outside the enumerated set. -/
def badIntentCompletion : Json :=
  .obj [("intent", .str "diagnose"),
        ("summary", .str "You clearly have anxiety."),
        ("actions", .arr []),
        ("confidence", .num (mkRat 1 2)),
        ("evidence", .arr [])]

/-- One repeated well-typed action object. -/
def repeatedAction : Json :=
  .obj [("type", .str "self-care"), ("text", .str "Take a short walk.")]

/-- One repeated well-typed evidence object. -/
def repeatedEvidence : Json :=
  .obj [("title", .str "Stress basics"), ("source", .str "WHO"), ("link", .str "https://www.who.int/stress")]

/-- A well-typed completion with `k` actions and `l` evidence items. -/
def listsCompletion (k l : Nat) : Json :=
  .obj [("intent", .str "self-care"),
        ("summary", .str "Here are several ideas."),
        ("actions", .arr (List.replicate k repeatedAction)),
        ("confidence", .num (mkRat 1 2)),
        ("evidence", .arr (List.replicate l repeatedEvidence))]

/-!
Helper lemmas about the validator.
-/

theorem occursIn_append_right (pat b : List Char) (h : occursIn pat b = true) :
    ∀ a, occursIn pat (a ++ b) = true := by
  intro a
  induction a with
  | nil => simpa using h
  | cons c cs ih =>
    show (pat.isPrefixOf (c :: (cs ++ b)) || occursIn pat (cs ++ b)) = true
    rw [ih]
    exact Bool.or_true _

theorem strOccurs_append_right (pat a b : String) (h : strOccurs pat b = true) :
    strOccurs pat (a ++ b) = true := by
  obtain ⟨ad⟩ := a
  obtain ⟨bd⟩ := b
  unfold strOccurs at h ⊢
  exact occursIn_append_right _ _ h _

theorem validateList_forall2 {α : Type} (f : Json → Option α) :
    ∀ {js : List Json} {as : List α}, validateList f js = some as →
      List.Forall₂ (fun j a => f j = some a) js as := by
  intro js
  induction js with
  | nil =>
    intro as h
    simp only [validateList, Option.some.injEq] at h
    subst h
    exact List.Forall₂.nil
  | cons j js ih =>
    intro as h
    unfold validateList at h
    cases hj : f j with
    | none => rw [hj] at h; simp at h
    | some a =>
      rw [hj] at h
      cases hjs : validateList f js with
      | none => rw [hjs] at h; simp at h
      | some rest =>
        rw [hjs] at h
        simp only [Option.some.injEq] at h
        subst h
        exact List.Forall₂.cons hj (ih hjs)

theorem validateList_replicate {α : Type} (f : Json → Option α) (j : Json) (a : α)
    (h : f j = some a) : ∀ n, validateList f (List.replicate n j) = some (List.replicate n a) := by
  intro n
  induction n with
  | zero => rfl
  | succ n ih => simp [List.replicate_succ, validateList, h, ih]

theorem validateActionItem_spec {j : Json} {a : ActionItem}
    (h : validateActionItem j = some a) :
    j.get "type" = some (.str a.type) ∧ j.get "text" = some (.str a.text) ∧
    a.type ∈ actionTypeValues := by
  unfold validateActionItem at h
  split at h
  next t x h1 h2 =>
    split at h
    next hmem =>
      cases h
      exact ⟨h1, h2, hmem⟩
    next => exact absurd h (by simp)
  next hno => exact absurd h (by simp)
theorem validateEvidenceItem_spec {j : Json} {e : EvidenceItem}
    (h : validateEvidenceItem j = some e) :
    j.get "title" = some (.str e.title) ∧ j.get "source" = some (.str e.source) ∧
    j.get "link" = some (.str e.link) := by
  unfold validateEvidenceItem at h
  split at h
  next t s l h1 h2 h3 =>
    cases h
    exact ⟨h1, h2, h3⟩
  next => exact absurd h (by simp)

theorem validateChatResponse_spec {j : Json} {r : ChatResponse}
    (h : validateChatResponse j = .ok r) :
    j.get "intent" = some (.str r.intent) ∧
    r.intent ∈ intentValues ∧
    j.get "summary" = some (.str r.summary) ∧
    j.get "confidence" = some (.num r.confidence) ∧
    0 ≤ r.confidence ∧ r.confidence ≤ 1 ∧
    (∃ as, j.get "actions" = some (.arr as) ∧ validateList validateActionItem as = some r.actions) ∧
    (∃ es, j.get "evidence" = some (.arr es) ∧ validateList validateEvidenceItem es = some r.evidence) := by
  unfold validateChatResponse at h
  split at h
  next i s as c es h1 h2 h3 h4 h5 =>
    split at h
    next hmem =>
      split at h
      next hc =>
        split at h
        next actions evidence ha he =>
          cases h
          exact ⟨h1, hmem, h2, h4, hc.1, hc.2, ⟨as, h3, ha⟩, ⟨es, h5, he⟩⟩
        next => exact absurd h (by simp)
        next => exact absurd h (by simp)
      next => exact absurd h (by simp)
    next => exact absurd h (by simp)
  next => exact absurd h (by simp)
theorem validateEvidenceItem_toJson (e : EvidenceItem) :
    validateEvidenceItem e.toJson = some e := rfl

theorem validateActionItem_toJson {a : ActionItem} (h : a.type ∈ actionTypeValues) :
    validateActionItem a.toJson = some a := by
  show (if a.type ∈ actionTypeValues then some { type := a.type, text := a.text } else none)
        = some a
  rw [if_pos h]

theorem validateList_toJson_actions {as : List ActionItem}
    (h : ∀ a ∈ as, a.type ∈ actionTypeValues) :
    validateList validateActionItem (as.map ActionItem.toJson) = some as := by
  induction as with
  | nil => rfl
  | cons a as ih =>
    simp only [List.map_cons, validateList,
      validateActionItem_toJson (h a (List.mem_cons_self a as)),
      ih (fun x hx => h x (List.mem_cons_of_mem a hx))]

theorem validateList_toJson_evidence (es : List EvidenceItem) :
    validateList validateEvidenceItem (es.map EvidenceItem.toJson) = some es := by
  induction es with
  | nil => rfl
  | cons e es ih => simp only [List.map_cons, validateList, validateEvidenceItem_toJson, ih]

theorem validateList_mem {α : Type} (f : Json → Option α) :
    ∀ {js : List Json} {as : List α}, validateList f js = some as →
      ∀ a ∈ as, ∃ j ∈ js, f j = some a := by
  intro js
  induction js with
  | nil =>
    intro as h a ha
    simp only [validateList, Option.some.injEq] at h
    subst h
    simp at ha
  | cons j js ih =>
    intro as h a ha
    unfold validateList at h
    cases hj : f j with
    | none => rw [hj] at h; exact absurd h (by simp)
    | some b =>
      rw [hj] at h
      cases hjs : validateList f js with
      | none => rw [hjs] at h; exact absurd h (by simp)
      | some rest =>
        rw [hjs] at h
        simp only [Option.some.injEq] at h
        subst h
        rcases List.mem_cons.mp ha with rfl | hmem
        · exact ⟨j, List.mem_cons_self _ _, hj⟩
        · obtain ⟨j2, hm2, hv2⟩ := ih hjs a hmem
          exact ⟨j2, List.mem_cons_of_mem _ hm2, hv2⟩

theorem validate_roundtrip {j : Json} {r : ChatResponse}
    (h : validateChatResponse j = .ok r) :
    validateChatResponse r.toJson = .ok r := by
  obtain ⟨-, hmem, -, -, hc0, hc1, ⟨as, -, ha⟩, ⟨es, -, he⟩⟩ := validateChatResponse_spec h
  have hact : ∀ a ∈ r.actions, a.type ∈ actionTypeValues := by
    intro a haa
    obtain ⟨j2, -, hv⟩ := validateList_mem validateActionItem ha a haa
    exact (validateActionItem_spec hv).2.2
  obtain ⟨ri, rs, ra, rc, re⟩ := r
  simp only [ChatResponse.toJson] at *
  simp [validateChatResponse, Json.get, Json.get.go, hmem, hc0, hc1,
        validateList_toJson_actions hact, validateList_toJson_evidence]

theorem userTurnsInHistory_cons (m : Msg) (h : List Msg) :
    userTurnsInHistory (m :: h) =
      (if m.get "role" = some "user" then 1 else 0) + userTurnsInHistory h := by
  unfold userTurnsInHistory
  rw [List.filter_cons]
  by_cases hc : m.get "role" = some "user"
  · simp [hc, Nat.add_comm]
  · simp [hc]

theorem invalidJson_detail_ne (e : String) :
    "An error occurred: 500: LLM returned invalid JSON." ≠
      "An error occurred: 500: LLM response validation failed: " ++ e := by
  intro h
  have hlen := congrArg String.length h
  rw [String.length_append] at hlen
  have h1 : ("An error occurred: 500: LLM returned invalid JSON." : String).length = 50 := rfl
  have h2 : ("An error occurred: 500: LLM response validation failed: " : String).length = 56 := rfl
  omega

/-!
Claim theorems.
-/

/-- C1: a POST /chat message containing one of the fixed crisis terms as
a whole word, case-insensitively, is answered with exactly the canned
emergency object (intent `escalate`, one `seek-professional` action,
confidence 1.0, empty evidence), and the completion API is not invoked:
the endpoint responds before the call. -/
theorem C1_emergency_canned (api_key : Option String) (req : ChatRequest)
    (h : ∃ t ∈ EMERGENCY_TERMS, containsWordCI t req.message = true) :
    chatStep api_key req = .respond (.okJson EMERGENCY_RESPONSE) ∧
    (∀ llm, chat api_key llm req = .okJson EMERGENCY_RESPONSE) ∧
    EMERGENCY_RESPONSE.get "intent" = some (.str "escalate") ∧
    (∃ a, EMERGENCY_RESPONSE.get "actions" = some (.arr [a]) ∧
      a.get "type" = some (.str "seek-professional")) ∧
    EMERGENCY_RESPONSE.get "confidence" = some (.num 1) ∧
    EMERGENCY_RESPONSE.get "evidence" = some (.arr []) := by
  have hm : emergencyMatch req.message = true := by
    unfold emergencyMatch
    rw [List.any_eq_true]
    obtain ⟨t, ht, hc⟩ := h
    exact ⟨t, ht, hc⟩
  refine ⟨?_, fun llm => ?_, rfl, ⟨_, rfl, rfl⟩, rfl, rfl⟩
  · simp [chatStep, hm]
  · simp [chat, chatStep, hm]

/-- Witness for C1 at the spec example message "I want to die". -/
theorem C1_emergency_canned_witness :
    (∃ t ∈ EMERGENCY_TERMS, containsWordCI t "I want to die" = true) ∧
    chatStep none { message := "I want to die", history := [] } =
      .respond (.okJson EMERGENCY_RESPONSE) := by
  have h : ∃ t ∈ EMERGENCY_TERMS, containsWordCI t "I want to die" = true :=
    ⟨"want to die", by decide, by decide⟩
  exact ⟨h, (C1_emergency_canned none { message := "I want to die", history := [] } h).1⟩

/-- C6: with no credential configured (unset or empty, Python-falsy), a
non-emergency request is answered before any network call: the endpoint
responds 500 with the missing-configuration detail instead of invoking
the completion API. -/
theorem C6_missing_credential (api_key : Option String) (req : ChatRequest)
    (hm : emergencyMatch req.message = false) (hk : missingKey api_key = true) :
    chatStep api_key req =
      .respond (.error 500 "OPENAI_API_KEY not configured on the server. Please set the environment variable.") ∧
    ∀ llm, chat api_key llm req =
      .error 500 "OPENAI_API_KEY not configured on the server. Please set the environment variable." := by
  constructor
  · simp [chatStep, hm, hk]
  · intro llm
    simp [chat, chatStep, hm, hk]

/-- Witness for C6: unset credential, plain greeting. -/
theorem C6_missing_credential_witness :
    emergencyMatch "Hello there" = false ∧ missingKey none = true ∧
    chatStep none { message := "Hello there", history := [] } =
      .respond (.error 500 "OPENAI_API_KEY not configured on the server. Please set the environment variable.") := by
  refine ⟨by decide, rfl, ?_⟩
  exact (C6_missing_credential none { message := "Hello there", history := [] } (by decide) rfl).1

/-- C7: for an emergency-matching message the canned success response is
returned for every credential state and every behavior of the external
API; no error branch (missing credential, upstream failure, parse or
schema failure, empty completion) is reachable. -/
theorem C7_emergency_unconditional (req : ChatRequest)
    (h : emergencyMatch req.message = true) :
    ∀ (api_key : Option String) (llm : List Msg → LLMOutcome),
      chat api_key llm req = .okJson EMERGENCY_RESPONSE ∧
      chatStep api_key req = .respond (.okJson EMERGENCY_RESPONSE) ∧
      ∀ status detail, chat api_key llm req ≠ .error status detail := by
  intro api_key llm
  refine ⟨?_, ?_, ?_⟩
  · simp [chat, chatStep, h]
  · simp [chatStep, h]
  · intro status detail hcontra
    simp [chat, chatStep, h] at hcontra

/-- Witness for C7: no credential and a failing API, yet the canned
response is produced. -/
theorem C7_emergency_unconditional_witness :
    emergencyMatch "I think I am in danger" = true ∧
    chat none (fun _ => .apiError "connection error")
      { message := "I think I am in danger", history := [] } = .okJson EMERGENCY_RESPONSE := by
  refine ⟨by decide, ?_⟩
  exact (C7_emergency_unconditional { message := "I think I am in danger", history := [] }
    (by decide) none (fun _ => .apiError "connection error")).1

/-- C9: for a non-emergency request with a configured credential the
endpoint performs exactly one completion call, whose message list is, in
this order: the fixed system prompt, the phase instruction, every entry
of the caller-supplied history verbatim (whatever its role value), and
the new user message with role `user`. -/
theorem C9_prompt_assembly (api_key : Option String) (req : ChatRequest)
    (hm : emergencyMatch req.message = false) (hk : missingKey api_key = false) :
    chatStep api_key req = .callLLM
      ([("role", "system"), ("content", SYSTEM_PROMPT)] ::
       [("role", "system"), ("content", build_phase_instruction (userTurnsInHistory req.history + 1))] ::
       (req.history ++ [[("role", "user"), ("content", req.message)]])) := by
  simp [chatStep, chatMessages, hm, hk]

/-- Messages with well-formed, malformed and absent role values. -/
def messyHistory : List Msg :=
  [[("role", "user"), ("content", "first message")],
   [("role", "assistant"), ("content", "reply")],
   [("role", "banana"), ("content", "malformed role")],
   [("content", "no role at all")]]

/-- Witness for C9: the history with malformed roles is passed through
verbatim. -/
theorem C9_prompt_assembly_witness :
    emergencyMatch "still anxious about it" = false ∧ missingKey (some "sk-test") = false ∧
    chatStep (some "sk-test") { message := "still anxious about it", history := messyHistory } =
      .callLLM
        ([("role", "system"), ("content", SYSTEM_PROMPT)] ::
         [("role", "system"), ("content", build_phase_instruction (userTurnsInHistory messyHistory + 1))] ::
         (messyHistory ++ [[("role", "user"), ("content", "still anxious about it")]])) := by
  exact ⟨by decide, rfl,
    C9_prompt_assembly (some "sk-test") { message := "still anxious about it", history := messyHistory }
      (by decide) rfl⟩

theorem isPrefixOf_append {pat l b : List Char} (h : pat.isPrefixOf l = true) :
    pat.isPrefixOf (l ++ b) = true := by
  rw [List.isPrefixOf_iff_prefix] at h ⊢
  exact h.trans (List.prefix_append l b)

theorem occursIn_append_left {pat a : List Char} (h : occursIn pat a = true) (b : List Char) :
    occursIn pat (a ++ b) = true := by
  induction a with
  | nil =>
    have hp : pat = [] := by simpa [occursIn] using h
    subst hp
    cases b with
    | nil => rfl
    | cons c cs => simp [occursIn, List.isPrefixOf]
  | cons c cs ih =>
    have h2 : (pat.isPrefixOf (c :: cs) || occursIn pat cs) = true := h
    show (pat.isPrefixOf (c :: (cs ++ b)) || occursIn pat (cs ++ b)) = true
    rcases Bool.or_eq_true_iff.mp h2 with h3 | h3
    · have h4 : pat.isPrefixOf ((c :: cs) ++ b) = true := isPrefixOf_append h3
      rw [List.cons_append] at h4
      rw [h4]
      rfl
    · rw [ih h3]
      exact Bool.or_true _

theorem strOccurs_append_left (pat a b : String) (h : strOccurs pat a = true) :
    strOccurs pat (a ++ b) = true := by
  obtain ⟨ad⟩ := a
  obtain ⟨bd⟩ := b
  unfold strOccurs at h ⊢
  exact occursIn_append_left h bd

set_option maxRecDepth 8192 in
/-- C2: for every non-emergency request the phase instruction is the
second system message and is a pure function of the user turn count
(the history entries whose role is exactly "user", plus one for the
current message; entries with a missing or different role are not
counted); a count of at most 3 yields the EXPLORATION instruction,
whose text demands empty `actions` and `evidence` lists, and a larger
count yields the GUIDANCE instruction, whose text demands 1–3 actions
and exactly one evidence item. -/
theorem C2_phase_classifier (api_key : Option String) (req : ChatRequest)
    (hm : emergencyMatch req.message = false) (hk : missingKey api_key = false) :
    chatStep api_key req = .callLLM (chatMessages req) ∧
    (chatMessages req).get? 1 =
      some [("role", "system"),
            ("content", build_phase_instruction (userTurnsInHistory req.history + 1))] ∧
    userTurnsInHistory ([] : List Msg) = 0 ∧
    (∀ (m : Msg) (h : List Msg), userTurnsInHistory (m :: h) =
      (if m.get "role" = some "user" then 1 else 0) + userTurnsInHistory h) ∧
    (∀ n, n ≤ 3 → build_phase_instruction n = explorationInstruction n) ∧
    (∀ n, 3 < n → build_phase_instruction n = guidanceInstruction n) ∧
    (∀ n, strOccurs "The \x27actions\x27 field in your JSON MUST be an empty list: []."
      (explorationInstruction n) = true) ∧
    (∀ n, strOccurs "The \x27evidence\x27 field in your JSON MUST be an empty list: []."
      (explorationInstruction n) = true) ∧
    (∀ n, strOccurs "Provide 1–3 concrete, realistic next steps in \x27actions\x27."
      (guidanceInstruction n) = true) ∧
    (∀ n, strOccurs "Provide exactly ONE appropriate resource in \x27evidence\x27 (WHO, NHS, or APA)."
      (guidanceInstruction n) = true) := by
  refine ⟨by simp [chatStep, hm, hk], rfl, rfl, userTurnsInHistory_cons, ?_, ?_, ?_, ?_, ?_, ?_⟩
  · intro n hn
    unfold build_phase_instruction
    rw [if_pos hn]
  · intro n hn
    unfold build_phase_instruction
    rw [if_neg (by omega)]
  · intro n
    exact strOccurs_append_right _ _ _ (by decide)
  · intro n
    exact strOccurs_append_right _ _ _ (by decide)
  · intro n
    exact strOccurs_append_right _ _ _ (by decide)
  · intro n
    exact strOccurs_append_right _ _ _ (by decide)

/-- A six-entry history containing three user turns, assistant replies
and one role-less entry. -/
def longHistory : List Msg :=
  [[("role", "user"), ("content", "m1")], [("role", "assistant"), ("content", "r1")],
   [("role", "user"), ("content", "m2")], [("role", "assistant"), ("content", "r2")],
   [("role", "user"), ("content", "m3")], [("content", "stray")]]

/-- Witness for C2: a request whose history has three prior user turns
reaches the completion call with the assembled messages. -/
theorem C2_phase_classifier_witness :
    emergencyMatch "what should I do next" = false ∧
    missingKey (some "sk-test") = false ∧
    chatStep (some "sk-test") { message := "what should I do next", history := longHistory } =
      .callLLM (chatMessages { message := "what should I do next", history := longHistory }) := by
  exact ⟨by decide, rfl,
    (C2_phase_classifier (some "sk-test")
      { message := "what should I do next", history := longHistory } (by decide) rfl).1⟩

/-- C4: a non-emergency request whose completion parses to a JSON value
accepted by the schema is answered 200 with the validated model, whose
intent, summary, confidence, actions and evidence mirror the parsed
JSON exactly (round-trip). -/
theorem C4_roundtrip (api_key : Option String) (llm : List Msg → LLMOutcome)
    (req : ChatRequest) (j : Json) (r : ChatResponse)
    (hm : emergencyMatch req.message = false) (hk : missingKey api_key = false)
    (hllm : llm (chatMessages req) = .validJson j)
    (hv : validateChatResponse j = .ok r) :
    chat api_key llm req = .okModel r ∧
    j.get "intent" = some (.str r.intent) ∧
    j.get "summary" = some (.str r.summary) ∧
    j.get "confidence" = some (.num r.confidence) ∧
    (∃ as, j.get "actions" = some (.arr as) ∧
      List.Forall₂ (fun (aj : Json) (a : ActionItem) =>
        aj.get "type" = some (.str a.type) ∧ aj.get "text" = some (.str a.text)) as r.actions) ∧
    (∃ es, j.get "evidence" = some (.arr es) ∧
      List.Forall₂ (fun (ej : Json) (e : EvidenceItem) =>
        ej.get "title" = some (.str e.title) ∧ ej.get "source" = some (.str e.source) ∧
        ej.get "link" = some (.str e.link)) es r.evidence) := by
  obtain ⟨h1, -, h2, h3, -, -, ⟨as, ha1, ha2⟩, ⟨es, he1, he2⟩⟩ := validateChatResponse_spec hv
  refine ⟨?_, h1, h2, h3, ⟨as, ha1, ?_⟩, ⟨es, he1, ?_⟩⟩
  · simp [chat, chatStep, hm, hk, hllm, handleLLMOutcome, hv]
  · exact (validateList_forall2 validateActionItem ha2).imp
      (fun _ _ hja => ⟨(validateActionItem_spec hja).1, (validateActionItem_spec hja).2.1⟩)
  · exact (validateList_forall2 validateEvidenceItem he2).imp
      (fun _ _ hje => validateEvidenceItem_spec hje)

/-- Witness for C4 at the spec's exploration example. -/
theorem C4_roundtrip_witness :
    emergencyMatch stressedReq.message = false ∧
    missingKey (some "sk-test") = false ∧
    validateChatResponse sampleCompletion =
      .ok { intent := "self-care",
            summary := "It sounds like work has been weighing on you. What part feels heaviest right now?",
            actions := [], confidence := mkRat 4 5, evidence := [] } ∧
    chat (some "sk-test") (fun _ => .validJson sampleCompletion) stressedReq =
      .okModel { intent := "self-care",
                 summary := "It sounds like work has been weighing on you. What part feels heaviest right now?",
                 actions := [], confidence := mkRat 4 5, evidence := [] } := by
  refine ⟨by decide, rfl, rfl, ?_⟩
  exact (C4_roundtrip (some "sk-test") (fun _ => .validJson sampleCompletion) stressedReq
    sampleCompletion _ (by decide) rfl rfl rfl).1

/-- C5: for a non-emergency request with a configured credential, a
completion that is not valid JSON yields HTTP 500 with a detail naming
invalid JSON; a valid-JSON completion that violates the schema (for
example confidence 1.5, or an unlisted intent) yields HTTP 500 with a
detail naming validation failure; the two details always differ, and
neither branch retries. -/
theorem C5_failure_modes (api_key : Option String) (llm : List Msg → LLMOutcome)
    (req : ChatRequest)
    (hm : emergencyMatch req.message = false) (hk : missingKey api_key = false) :
    (llm (chatMessages req) = .invalidJson →
      chat api_key llm req = .error 500 "An error occurred: 500: LLM returned invalid JSON.") ∧
    (∀ j e, llm (chatMessages req) = .validJson j → validateChatResponse j = .error e →
      chat api_key llm req =
        .error 500 ("An error occurred: 500: LLM response validation failed: " ++ e)) ∧
    strOccurs "invalid JSON" "An error occurred: 500: LLM returned invalid JSON." = true ∧
    (∀ e, strOccurs "LLM response validation failed"
      ("An error occurred: 500: LLM response validation failed: " ++ e) = true) ∧
    (∀ e, "An error occurred: 500: LLM returned invalid JSON." ≠
      "An error occurred: 500: LLM response validation failed: " ++ e) ∧
    validateChatResponse overconfidentCompletion =
      .error "confidence: value is not in the range [0.0, 1.0]" ∧
    validateChatResponse badIntentCompletion =
      .error "intent: value is not a permitted literal" := by
  refine ⟨?_, ?_, by decide, ?_, invalidJson_detail_ne, rfl, rfl⟩
  · intro hllm
    simp [chat, chatStep, hm, hk, hllm, handleLLMOutcome]
  · intro j e hllm hv
    simp [chat, chatStep, hm, hk, hllm, handleLLMOutcome, hv]
  · intro e
    exact strOccurs_append_left _ _ _ (by decide)

/-- Witness for C5: an invalid-JSON completion, and the spec's
confidence-1.5 schema violation. -/
theorem C5_failure_modes_witness :
    emergencyMatch stressedReq.message = false ∧
    missingKey (some "sk-test") = false ∧
    chat (some "sk-test") (fun _ => .invalidJson) stressedReq =
      .error 500 "An error occurred: 500: LLM returned invalid JSON." ∧
    chat (some "sk-test") (fun _ => .validJson overconfidentCompletion) stressedReq =
      .error 500 ("An error occurred: 500: LLM response validation failed: " ++
        "confidence: value is not in the range [0.0, 1.0]") := by
  refine ⟨by decide, rfl, ?_, ?_⟩
  · exact (C5_failure_modes (some "sk-test") (fun _ => .invalidJson) stressedReq
      (by decide) rfl).1 rfl
  · exact (C5_failure_modes (some "sk-test") (fun _ => .validJson overconfidentCompletion)
      stressedReq (by decide) rfl).2.1 overconfidentCompletion
      "confidence: value is not in the range [0.0, 1.0]" rfl rfl

/-- C3 counterexample: "BBC" is not one of WHO/NHS/APA, yet a completion
carrying it as the evidence source is accepted: the endpoint returns
200 with the validated model instead of a 500 schema violation. -/
theorem C3_counterexample :
    ¬ (("BBC" : String) ∈ ["WHO", "NHS", "APA"]) ∧
    validateChatResponse (completionWithSource "BBC") =
      .ok { intent := "refer", summary := "Consider talking this through with a professional.",
            actions := [{ type := "seek-professional", text := "Book a session with a therapist." }],
            confidence := mkRat 7 10,
            evidence := [{ title := "Coping with Stress", source := "BBC",
                           link := "https://example.org/stress" }] } ∧
    chat (some "sk-test") (fun _ => .validJson (completionWithSource "BBC")) stressedReq =
      .okModel { intent := "refer", summary := "Consider talking this through with a professional.",
                 actions := [{ type := "seek-professional", text := "Book a session with a therapist." }],
                 confidence := mkRat 7 10,
                 evidence := [{ title := "Coping with Stress", source := "BBC",
                                link := "https://example.org/stress" }] } := by
  exact ⟨by decide, rfl, rfl⟩

/-- C3 amended: the validator enforces enum membership for `intent` and
for the action `type`, but `EvidenceItem.source` is declared a plain
string, so a completion whose evidence source is any string at all —
in particular one outside WHO/NHS/APA — is accepted (HTTP 200), not
rejected. -/
theorem C3_amended (s : String) :
    validateChatResponse (completionWithSource s) =
      .ok { intent := "refer", summary := "Consider talking this through with a professional.",
            actions := [{ type := "seek-professional", text := "Book a session with a therapist." }],
            confidence := mkRat 7 10,
            evidence := [{ title := "Coping with Stress", source := s,
                           link := "https://example.org/stress" }] } ∧
    (∀ j a, validateActionItem j = some a → a.type ∈ actionTypeValues) ∧
    (∀ j r, validateChatResponse j = .ok r → r.intent ∈ intentValues) := by
  exact ⟨rfl, fun j a h => (validateActionItem_spec h).2.2,
    fun j r h => (validateChatResponse_spec h).2.1⟩

/-- Witness for the amended C3 at concrete inputs. -/
theorem C3_amended_witness :
    validateActionItem repeatedAction = some { type := "self-care", text := "Take a short walk." } ∧
    (("self-care" : String) ∈ actionTypeValues) := by
  refine ⟨rfl, ?_⟩
  exact (C3_amended "BBC").2.1 repeatedAction { type := "self-care", text := "Take a short walk." } rfl

/-- C8 counterexample: a valid-JSON completion with four actions and two
evidence items — beyond the claimed 0–3 and 0–1 bounds — is accepted:
the endpoint returns 200 with the validated model, not a 500 schema
violation. -/
theorem C8_counterexample :
    (List.replicate 4 repeatedAction).length = 4 ∧
    (List.replicate 2 repeatedEvidence).length = 2 ∧
    chat (some "sk-test") (fun _ => .validJson (listsCompletion 4 2)) stressedReq =
      .okModel { intent := "self-care", summary := "Here are several ideas.",
                 actions := List.replicate 4 { type := "self-care", text := "Take a short walk." },
                 confidence := mkRat 1 2,
                 evidence := List.replicate 2
                   ({ title := "Stress basics", source := "WHO",
                      link := "https://www.who.int/stress" }) } := by
  exact ⟨rfl, rfl, rfl⟩

/-- C8 amended: the enforced schema puts no bound on either list — a
well-typed completion with any number of actions and any number of
evidence items validates and is returned as-is by the endpoint; the
0–3 and 0–1 cardinalities are requested of the model via the prompt
only. -/
theorem C8_amended (k l : Nat) :
    validateChatResponse (listsCompletion k l) =
      .ok { intent := "self-care", summary := "Here are several ideas.",
            actions := List.replicate k { type := "self-care", text := "Take a short walk." },
            confidence := mkRat 1 2,
            evidence := List.replicate l
              ({ title := "Stress basics", source := "WHO",
                 link := "https://www.who.int/stress" }) } ∧
    chat (some "sk-test") (fun _ => .validJson (listsCompletion k l)) stressedReq =
      .okModel { intent := "self-care", summary := "Here are several ideas.",
                 actions := List.replicate k { type := "self-care", text := "Take a short walk." },
                 confidence := mkRat 1 2,
                 evidence := List.replicate l
                   ({ title := "Stress basics", source := "WHO",
                      link := "https://www.who.int/stress" }) } := by
  have ha := validateList_replicate validateActionItem repeatedAction
      { type := "self-care", text := "Take a short walk." } rfl k
  have he := validateList_replicate validateEvidenceItem repeatedEvidence
      { title := "Stress basics", source := "WHO", link := "https://www.who.int/stress" } rfl l
  have hv : validateChatResponse (listsCompletion k l) =
      .ok { intent := "self-care", summary := "Here are several ideas.",
            actions := List.replicate k { type := "self-care", text := "Take a short walk." },
            confidence := mkRat 1 2,
            evidence := List.replicate l
              ({ title := "Stress basics", source := "WHO",
                 link := "https://www.who.int/stress" }) } := by
    show (if ("self-care" : String) ∈ intentValues then
            if 0 ≤ mkRat 1 2 ∧ mkRat 1 2 ≤ 1 then
              match validateList validateActionItem (List.replicate k repeatedAction),
                    validateList validateEvidenceItem (List.replicate l repeatedEvidence) with
              | some actions, some evidence =>
                  (Except.ok { intent := "self-care", summary := "Here are several ideas.",
                               actions := actions, confidence := mkRat 1 2, evidence := evidence }
                    : Except String ChatResponse)
              | none, _ => Except.error "actions: value is not a valid ActionItem"
              | _, none => Except.error "evidence: value is not a valid EvidenceItem"
            else Except.error "confidence: value is not in the range [0.0, 1.0]"
          else Except.error "intent: value is not a permitted literal") =
      Except.ok { intent := "self-care", summary := "Here are several ideas.",
                  actions := List.replicate k { type := "self-care", text := "Take a short walk." },
                  confidence := mkRat 1 2,
                  evidence := List.replicate l
                    ({ title := "Stress basics", source := "WHO",
                       link := "https://www.who.int/stress" }) }
    rw [if_pos (by decide), if_pos (by decide), ha, he]
  refine ⟨hv, ?_⟩
  have h2 : handleLLMOutcome (.validJson (listsCompletion k l)) =
      (match validateChatResponse (listsCompletion k l) with
       | Except.ok r => ChatResult.okModel r
       | Except.error e =>
           ChatResult.error 500 ("An error occurred: 500: LLM response validation failed: " ++ e)) := rfl
  show handleLLMOutcome (.validJson (listsCompletion k l)) =
      ChatResult.okModel { intent := "self-care", summary := "Here are several ideas.",
                           actions := List.replicate k { type := "self-care", text := "Take a short walk." },
                           confidence := mkRat 1 2,
                           evidence := List.replicate l
                             ({ title := "Stress basics", source := "WHO",
                                link := "https://www.who.int/stress" }) }
  rw [h2, hv]

theorem chat_okJson_inv {api_key : Option String} {llm : List Msg → LLMOutcome}
    {req : ChatRequest} {b : Json}
    (h : chat api_key llm req = .okJson b) : b = EMERGENCY_RESPONSE := by
  unfold chat at h
  split at h
  next r heq =>
    subst h
    unfold chatStep at heq
    split at heq
    next =>
      injection heq with h1
      injection h1 with h2
      exact h2.symm
    next =>
      split at heq
      next =>
        injection heq with h1
        exact ChatResult.noConfusion h1
      next => exact ChatStep.noConfusion heq
  next ms heq =>
    cases hout : llm ms with
    | apiError m => rw [hout] at h; simp [handleLLMOutcome] at h
    | emptyContent => rw [hout] at h; simp [handleLLMOutcome] at h
    | invalidJson => rw [hout] at h; simp [handleLLMOutcome] at h
    | validJson j =>
      rw [hout] at h
      have h2 : (match validateChatResponse j with
                 | Except.ok r2 => ChatResult.okModel r2
                 | Except.error e =>
                     ChatResult.error 500
                       ("An error occurred: 500: LLM response validation failed: " ++ e)) =
          ChatResult.okJson b := h
      cases hv : validateChatResponse j with
      | ok r2 => rw [hv] at h2; exact ChatResult.noConfusion h2
      | error e => rw [hv] at h2; exact ChatResult.noConfusion h2

theorem chat_okModel_inv {api_key : Option String} {llm : List Msg → LLMOutcome}
    {req : ChatRequest} {r : ChatResponse}
    (h : chat api_key llm req = .okModel r) :
    ∃ j, validateChatResponse j = .ok r := by
  unfold chat at h
  split at h
  next r2 heq =>
    subst h
    unfold chatStep at heq
    split at heq
    next =>
      injection heq with h1
      exact ChatResult.noConfusion h1
    next =>
      split at heq
      next =>
        injection heq with h1
        exact ChatResult.noConfusion h1
      next => exact ChatStep.noConfusion heq
  next ms heq =>
    cases hout : llm ms with
    | apiError m => rw [hout] at h; simp [handleLLMOutcome] at h
    | emptyContent => rw [hout] at h; simp [handleLLMOutcome] at h
    | invalidJson => rw [hout] at h; simp [handleLLMOutcome] at h
    | validJson j =>
      rw [hout] at h
      have h2 : (match validateChatResponse j with
                 | Except.ok r2 => ChatResult.okModel r2
                 | Except.error e =>
                     ChatResult.error 500
                       ("An error occurred: 500: LLM response validation failed: " ++ e)) =
          ChatResult.okModel r := h
      cases hv : validateChatResponse j with
      | ok r2 =>
        rw [hv] at h2
        injection h2 with h1
        exact ⟨j, h1 ▸ hv⟩
      | error e => rw [hv] at h2; exact ChatResult.noConfusion h2

/-- C10: every 200 response of the endpoint conforms to the enforced
ChatResponse schema: a body returned as raw JSON revalidates
successfully (it can only be the canned emergency object), a validated
model revalidates to itself after serialization, and the canned object
satisfies each enumerated constraint (intent in the enum, single action
type in the enum, confidence within bounds, empty evidence list). -/
theorem C10_success_schema (api_key : Option String) (llm : List Msg → LLMOutcome)
    (req : ChatRequest) :
    (∀ b, chat api_key llm req = .okJson b → (validateChatResponse b).isOk = true) ∧
    (∀ r, chat api_key llm req = .okModel r → validateChatResponse r.toJson = .ok r) ∧
    (∃ r0 : ChatResponse, validateChatResponse EMERGENCY_RESPONSE = .ok r0 ∧
      r0.intent = "escalate" ∧ r0.intent ∈ intentValues ∧
      (∃ a0, r0.actions = [a0] ∧ a0.type = "seek-professional" ∧ a0.type ∈ actionTypeValues) ∧
      r0.confidence = 1 ∧ 0 ≤ r0.confidence ∧ r0.confidence ≤ 1 ∧ r0.evidence = []) := by
  refine ⟨?_, ?_, ?_⟩
  · intro b hb
    rw [chat_okJson_inv hb]
    decide
  · intro r hr
    obtain ⟨j, hv⟩ := chat_okModel_inv hr
    exact validate_roundtrip hv
  · refine ⟨{ intent := "escalate",
              summary := "It sounds like you might be in immediate danger or experiencing a medical emergency. Please seek help right now.",
              actions := [{ type := "seek-professional",
                            text := "Please contact your local emergency services immediately (for example, 911 or 999), or go to the nearest emergency room. If possible, also reach out to a trusted person near you." }],
              confidence := 1, evidence := [] }, rfl, rfl, by decide, ⟨_, rfl, rfl, by decide⟩,
            rfl, by decide, by decide, rfl⟩

/-- Witness for C10 on the emergency path with a failing API. -/
theorem C10_success_schema_witness :
    chat none (fun _ => .apiError "down") { message := "suicide", history := [] } =
      .okJson EMERGENCY_RESPONSE ∧
    (validateChatResponse EMERGENCY_RESPONSE).isOk = true := by
  have hchat : chat none (fun _ => .apiError "down") { message := "suicide", history := [] } =
      .okJson EMERGENCY_RESPONSE := rfl
  exact ⟨hchat,
    (C10_success_schema none (fun _ => .apiError "down")
      { message := "suicide", history := [] }).1 EMERGENCY_RESPONSE hchat⟩
